import Mathlib

/-!
Verification development for the pateldhairya0328/Notebooks repository.

The repository consists of tutorial notebooks around the Microsoft SEAL /
TF SEAL / HE-Transformer homomorphic-encryption libraries.  This file gives a
shallow embedding of the repository-defined code:

 - the Python helper functions str2bool and server_config_from_flags from the
   HE-Transformer notebook, embedded as executable Lean functions;
 - the C# encrypt/decrypt timing programs, embedded as concrete traces of
   SEAL library calls together with a small denotational semantics over an
   abstract SEAL oracle;
 - the timing / printing arithmetic of the looped C# programs and of the
   logistic-regression notebook;
 - an activity-level transcription of every repository-defined code unit,
   used to settle the spec claims about what the repository's own code does;
 - the row-times-ones matrix identity the addition demonstration relies on.

Machine floating-point values are modelled as rationals (decimal literals are
taken at their written value; Math.Pow(2.0, 40) is exactly 2 ^ 40), byte
strings produced by Python str.encode are identified with their strings, and
Python str.lower is modelled character-wise by Char.toLower.
-/

namespace Notebooks

/-! ### str2bool, from the HE-Transformer notebook -/

/-- A Python value passed to str2bool by argparse: either a bool or a string. -/
inductive PyVal where
  | bool (b : Bool)
  | str (s : String)
  deriving DecidableEq

/-- Outcome of a Python call: a returned value or a raised exception. -/
inductive PyOutcome where
  | ret (v : PyVal)
  | raise (exc : String)
  deriving DecidableEq

/-- The tuple ("on", "yes", "true", "t", "y", "1") from str2bool. -/
def trueWords : List String := ["on", "yes", "true", "t", "y", "1"]

/-- The tuple ("off", "no", "false", "f", "n", "0") from str2bool. -/
def falseWords : List String := ["off", "no", "false", "f", "n", "0"]

/-- Python str.lower, modelled character-wise. -/
def pyLower (s : String) : String := ⟨s.data.map Char.toLower⟩

/-- def str2bool(v), transcribed from the HE-Transformer notebook:
returns v if it is a bool; otherwise tests v.lower() against the two word
tuples and raises argparse.ArgumentTypeError on no match. -/
def str2bool : PyVal → PyOutcome
  | .bool b => .ret (.bool b)
  | .str v =>
    if pyLower v ∈ trueWords then .ret (.bool true)
    else if pyLower v ∈ falseWords then .ret (.bool false)
    else .raise "argparse.ArgumentTypeError"

/-! ### server_config_from_flags, from the HE-Transformer notebook -/

/-- Python str(b) for a bool b. -/
def pyStr (b : Bool) : String := if b then "True" else "False"

/-- The three FLAGS fields read by server_config_from_flags. -/
structure FLAGS where
  backend : String
  encryption_parameters : String
  enable_client : Bool

/-- Protobuf map assignment: parameter_map[k].s = v overwrites any earlier
binding of k. -/
def mapSet (m : String → Option String) (k v : String) : String → Option String :=
  fun q => if q = k then some v else m q

/-- One entry of rewriter_options.custom_optimizers. -/
structure CustomOptimizer where
  name : String
  parameter_map : String → Option String

/-- The RewriterConfig protobuf fields set by server_config_from_flags. -/
structure RewriterConfig where
  meta_optimizer_iterations : Nat
  min_graph_nodes : Int
  custom_optimizers : List CustomOptimizer

/-- The ConfigProto returned by server_config_from_flags; only the merged
rewrite_options are observable in the embedding. -/
structure ConfigProto where
  rewrite_options : RewriterConfig

/-- def server_config_from_flags(FLAGS, tensor_param_name), transcribed from
the HE-Transformer notebook.  The parameter-map assignments are performed in
source order; the conditional client entry comes last. -/
def server_config_from_flags (F : FLAGS) (tensor_param_name : String) : ConfigProto :=
  let m0 : String → Option String := fun _ => none
  let m1 := mapSet m0 "ngraph_backend" F.backend
  let m2 := mapSet m1 "device_id" ""
  let m3 := mapSet m2 "encryption_parameters" F.encryption_parameters
  let m4 := mapSet m3 "enable_client" (pyStr F.enable_client)
  let m5 := if F.enable_client then mapSet m4 tensor_param_name "client_input" else m4
  { rewrite_options :=
    { meta_optimizer_iterations := 1
      min_graph_nodes := -1
      custom_optimizers := [{ name := "ngraph-optimizer", parameter_map := m5 }] } }

/-- The ngraph-optimizer parameter map of the returned config. -/
def ngraphParams (F : FLAGS) (tensor_param_name : String) : String → Option String :=
  ((server_config_from_flags F tensor_param_name).rewrite_options.custom_optimizers.headD
    { name := "", parameter_map := fun _ => none }).parameter_map

/-! ### The row-times-ones identity of the addition demonstration -/

/-- b = np.ones((2, 1)) from the addition demonstration. -/
def onesCol : Matrix (Fin 2) (Fin 1) ℚ := fun _ _ => 1

/-- d = tf.matmul(a_plain, b): the plaintext product the addition
demonstration compares the SEAL result against. -/
def plainSum (a : Matrix (Fin 1) (Fin 2) ℚ) : Matrix (Fin 1) (Fin 1) ℚ :=
  a * onesCol

/-! ### Traces of the C# SEAL programs

Each C# program in the notebooks is embedded as the concrete sequence of
library calls it performs, one event per call, transcribed line by line.
Local double variables (scale) are captured as the arguments of the calls
that consume them.  The mathematical constant written 2.718281828459 and the
scale Math.Pow(2.0, 40) are taken at their exact rational values. -/

/-- One SEAL / host library call performed by a C# program. -/
inductive Event where
  | newParams (scheme : String)
  | setPolyModulusDegree (n : ℕ)
  | setCoeffModulus (degree : ℕ) (bits : List ℕ)
  | newContext
  | newKeyGenerator
  | getPublicKey
  | getSecretKey
  | newEncryptor
  | newDecryptor
  | newEncoder
  | newPlaintext (dst : String)
  | newCiphertext (dst : String)
  | newList (dst : String)
  | stopwatchStart
  | stopwatchStop
  | encode (value scale : ℚ) (dst : String)
  | encrypt (src dst : String)
  | decrypt (src dst : String)
  | decode (src dst : String)
  | writeLine (s : String)
  | setLabel (s : String)
  deriving DecidableEq

/-- The double literal 2.718281828459 encoded by every C# program. -/
def eConst : ℚ := 2.718281828459

/-- double scale = Math.Pow(2.0, 40), which is exactly 2 ^ 40. -/
def ckksScale : ℚ := 2 ^ 40

/-- A for loop running its body n times, as a trace. -/
def loopN (n : ℕ) (body : List Event) : List Event :=
  (List.replicate n body).flatten

/-- test.Main from the first C# cell: set up parameters, keys and helper
objects, run one encode/encrypt/decrypt/decode round, print the original
value and result[0].  Transcribed statement by statement. -/
def testMainPlainTrace : List Event :=
  [.newParams "CKKS",
   .setPolyModulusDegree 8192,
   .setCoeffModulus 8192 [60, 40, 40, 60],
   .newContext,
   .writeLine "",
   .newKeyGenerator,
   .getPublicKey,
   .getSecretKey,
   .newEncryptor,
   .newDecryptor,
   .newEncoder,
   .newPlaintext "xPlain",
   .newPlaintext "plainResult",
   .newCiphertext "x1Encrypted",
   .newList "result",
   .encode eConst ckksScale "xPlain",
   .encrypt "xPlain" "x1Encrypted",
   .decrypt "x1Encrypted" "plainResult",
   .decode "plainResult" "result",
   .writeLine "2.718281828459",
   .writeLine "result[0]"]

/-- test.Main with a Stopwatch around the single round, printing the elapsed
milliseconds. -/
def testMainTimedTrace : List Event :=
  [.newParams "CKKS",
   .setPolyModulusDegree 8192,
   .setCoeffModulus 8192 [60, 40, 40, 60],
   .newContext,
   .writeLine "",
   .newKeyGenerator,
   .getPublicKey,
   .getSecretKey,
   .newEncryptor,
   .newDecryptor,
   .newEncoder,
   .newPlaintext "xPlain",
   .newPlaintext "plainResult",
   .newCiphertext "x1Encrypted",
   .newList "result",
   .stopwatchStart,
   .encode eConst ckksScale "xPlain",
   .encrypt "xPlain" "x1Encrypted",
   .decrypt "x1Encrypted" "plainResult",
   .decode "plainResult" "result",
   .stopwatchStop,
   .writeLine "2.718281828459",
   .writeLine "result[0]",
   .writeLine "Time taken: ms"]

/-- test.Main with the round inside for (int i = 0; i < 1000; i++), printing
the average stopWatch.ElapsedMilliseconds / 1000.0. -/
def testMainLoopTrace : List Event :=
  [.newParams "CKKS",
   .setPolyModulusDegree 8192,
   .setCoeffModulus 8192 [60, 40, 40, 60],
   .newContext,
   .writeLine "",
   .newKeyGenerator,
   .getPublicKey,
   .getSecretKey,
   .newEncryptor,
   .newDecryptor,
   .newEncoder,
   .newPlaintext "xPlain",
   .newPlaintext "plainResult",
   .newCiphertext "x1Encrypted",
   .newList "result",
   .stopwatchStart] ++
  loopN 1000
    [.encode eConst ckksScale "xPlain",
     .encrypt "xPlain" "x1Encrypted",
     .decrypt "x1Encrypted" "plainResult",
     .decode "plainResult" "result"] ++
  [.stopwatchStop,
   .writeLine "2.718281828459",
   .writeLine "result[0]",
   .writeLine "Average Time taken: ms"]

/-- public test.Main from the Android notebook, untimed variant, printing
Original and Enc/Dec lines. -/
def ticksMainPlainTrace : List Event :=
  [.newParams "CKKS",
   .setPolyModulusDegree 8192,
   .setCoeffModulus 8192 [60, 40, 40, 60],
   .newContext,
   .writeLine "",
   .newKeyGenerator,
   .getPublicKey,
   .getSecretKey,
   .newEncryptor,
   .newDecryptor,
   .newEncoder,
   .newPlaintext "xPlain",
   .newPlaintext "plainResult",
   .newCiphertext "x1Encrypted",
   .newList "result",
   .encode eConst ckksScale "xPlain",
   .encrypt "xPlain" "x1Encrypted",
   .decrypt "x1Encrypted" "plainResult",
   .decode "plainResult" "result",
   .writeLine "Original",
   .writeLine "Enc/Dec"]

/-- public test.Main from the Android notebook timing a single round via
stopwatch ticks, printing 1000.0 * ElapsedTicks / Frequency. -/
def ticksMainTimedTrace : List Event :=
  [.newParams "CKKS",
   .setPolyModulusDegree 8192,
   .setCoeffModulus 8192 [60, 40, 40, 60],
   .newContext,
   .writeLine "",
   .newKeyGenerator,
   .getPublicKey,
   .getSecretKey,
   .newEncryptor,
   .newDecryptor,
   .newEncoder,
   .newPlaintext "xPlain",
   .newPlaintext "plainResult",
   .newCiphertext "x1Encrypted",
   .newList "result",
   .stopwatchStart,
   .encode eConst ckksScale "xPlain",
   .encrypt "xPlain" "x1Encrypted",
   .decrypt "x1Encrypted" "plainResult",
   .decode "plainResult" "result",
   .stopwatchStop,
   .writeLine "Original",
   .writeLine "Enc/Dec",
   .writeLine "Time taken: ms"]

/-- public test.Main from the Android notebook with the 1000-iteration loop,
printing 1.0 * ElapsedTicks / Frequency as ms on average per enc/dec. -/
def ticksMainLoopTrace : List Event :=
  [.newParams "CKKS",
   .setPolyModulusDegree 8192,
   .setCoeffModulus 8192 [60, 40, 40, 60],
   .newContext,
   .writeLine "",
   .newKeyGenerator,
   .getPublicKey,
   .getSecretKey,
   .newEncryptor,
   .newDecryptor,
   .newEncoder,
   .newPlaintext "xPlain",
   .newPlaintext "plainResult",
   .newCiphertext "x1Encrypted",
   .newList "result",
   .stopwatchStart] ++
  loopN 1000
    [.encode eConst ckksScale "xPlain",
     .encrypt "xPlain" "x1Encrypted",
     .decrypt "x1Encrypted" "plainResult",
     .decode "plainResult" "result"] ++
  [.stopwatchStop,
   .writeLine "Original",
   .writeLine "Enc/Dec",
   .writeLine "Time taken: ms on average per enc/dec"]

/-- void Handle_Clicked from the Xamarin page: the same computation as the
looped tick-based test.Main, displaying the three output lines in the page
label instead of the console. -/
def handleClickedTrace : List Event :=
  [.newParams "CKKS",
   .setPolyModulusDegree 8192,
   .setCoeffModulus 8192 [60, 40, 40, 60],
   .newContext,
   .writeLine "",
   .newKeyGenerator,
   .getPublicKey,
   .getSecretKey,
   .newEncryptor,
   .newDecryptor,
   .newEncoder,
   .newPlaintext "xPlain",
   .newPlaintext "plainResult",
   .newCiphertext "x1Encrypted",
   .newList "result",
   .stopwatchStart] ++
  loopN 1000
    [.encode eConst ckksScale "xPlain",
     .encrypt "xPlain" "x1Encrypted",
     .decrypt "x1Encrypted" "plainResult",
     .decode "plainResult" "result"] ++
  [.stopwatchStop,
   .setLabel "Original Enc/Dec Time taken"]

/-! ### Trace checkers -/

/-- Events that construct or mutate the encryption parameters. -/
def isParamSet : Event → Bool
  | .newParams _ => true
  | .setPolyModulusDegree _ => true
  | .setCoeffModulus _ _ => true
  | _ => false

/-- Events that are cryptographic encode/encrypt/decrypt/decode calls. -/
def isCrypto : Event → Bool
  | .encode _ _ _ => true
  | .encrypt _ _ => true
  | .decrypt _ _ => true
  | .decode _ _ => true
  | _ => false

/-- The subsequence of cryptographic calls of a trace. -/
def cryptoCalls (t : List Event) : List Event := t.filter isCrypto

/-- The scales passed to the Encode calls of a trace. -/
def scalesOf (t : List Event) : List ℚ :=
  t.filterMap fun e =>
    match e with
    | .encode _ s _ => some s
    | _ => none

/-- precedes isA isB t: no event satisfying isB occurs before the first
event satisfying isA (scanning left to right). -/
def precedes (isA isB : Event → Bool) : List Event → Bool
  | [] => true
  | e :: es => if isB e then false else if isA e then true else precedes isA isB es

/-- The set (as a list) of ciphertext names written so far. -/
def stepProduced (p : List String) : Event → List String
  | .encrypt _ dst => dst :: p
  | _ => p

/-- Ciphertext names produced by a trace, given the initially produced ones. -/
def producedAfter (p : List String) (t : List Event) : List String :=
  t.foldl stepProduced p

/-- Scans a trace; every Decrypt call must name a ciphertext some earlier
Encrypt call has written (or one produced before the trace started). -/
def decryptSafeAux (p : List String) : List Event → Bool
  | [] => true
  | e :: es =>
    match e with
    | .decrypt src _ => p.contains src && decryptSafeAux p es
    | _ => decryptSafeAux (stepProduced p e) es

/-- No Decrypt call on a ciphertext Encrypt has not yet produced. -/
def decryptSafe (t : List Event) : Bool := decryptSafeAux [] t

/-- The single encode/encrypt/decrypt/decode round shared by every C#
program, used to state the claims (the traces above spell it out inline). -/
def encDecRound : List Event :=
  [.encode eConst ckksScale "xPlain",
   .encrypt "xPlain" "x1Encrypted",
   .decrypt "x1Encrypted" "plainResult",
   .decode "plainResult" "result"]

/-! ### Loop lemmas -/

theorem loopN_zero (body : List Event) : loopN 0 body = [] := rfl

theorem loopN_succ (n : ℕ) (body : List Event) :
    loopN (n + 1) body = body ++ loopN n body := by
  simp [loopN, List.replicate_succ]

theorem filter_loopN (p : Event → Bool) (n : ℕ) (body : List Event) :
    (loopN n body).filter p = loopN n (body.filter p) := by
  induction n with
  | zero => rfl
  | succ k ih => simp [loopN_succ, List.filter_append, ih]

theorem filterMap_loopN {α : Type} (f : Event → Option α) (n : ℕ) (body : List Event) :
    (loopN n body).filterMap f = (List.replicate n (body.filterMap f)).flatten := by
  induction n with
  | zero => rfl
  | succ k ih =>
    simp [loopN_succ, List.filterMap_append, ih, List.replicate_succ]

theorem count_loopN (e : Event) (n : ℕ) (body : List Event) :
    (loopN n body).count e = n * body.count e := by
  induction n with
  | zero => simp [loopN]
  | succ k ih =>
    rw [loopN_succ, List.count_append, ih]
    ring

theorem join_replicate_singleton {α : Type} (n : ℕ) (a : α) :
    (List.replicate n [a]).flatten = List.replicate n a := by
  induction n with
  | zero => rfl
  | succ k ih => simp [List.replicate_succ, ih]

theorem producedAfter_round (p : List String) :
    producedAfter p encDecRound = "x1Encrypted" :: p := rfl

theorem decryptSafeAux_append (p : List String) (l1 l2 : List Event) :
    decryptSafeAux p (l1 ++ l2)
      = (decryptSafeAux p l1 && decryptSafeAux (producedAfter p l1) l2) := by
  induction l1 generalizing p with
  | nil => simp [decryptSafeAux, producedAfter]
  | cons e es ih =>
    cases e <;>
      simp [decryptSafeAux, stepProduced, producedAfter, ih, Bool.and_assoc]

theorem decryptSafeAux_round (p : List String) :
    decryptSafeAux p encDecRound = true := by
  simp [encDecRound, decryptSafeAux, stepProduced, List.contains_cons]

theorem decryptSafeAux_loop (n : ℕ) (p : List String) :
    decryptSafeAux p (loopN n encDecRound) = true := by
  induction n generalizing p with
  | zero => rfl
  | succ k ih =>
    rw [loopN_succ, decryptSafeAux_append, decryptSafeAux_round,
      producedAfter_round, ih]
    rfl

/-! ### Denotational semantics of the C# programs over an abstract oracle

The SEAL library operations are abstract functions; the programs are run by
folding their traces over a four-slot store named after the program's local
variables xPlain, plainResult, x1Encrypted and result.  CKKSEncoder.Decode
overwrites its destination list, so decode assigns the result slot. -/

/-- An abstract SEAL oracle: deterministic encode, encrypt, decrypt and
decode operations on opaque plaintext, ciphertext and decoded types. -/
structure SealOps (P C D : Type) where
  encode : ℚ → ℚ → P
  encrypt : P → C
  decrypt : C → P
  decode : P → D

/-- The store of a C# program: one slot per local SEAL object. -/
structure CsState (P C D : Type) where
  xPlain : Option P
  plainResult : Option P
  x1Encrypted : Option C
  result : Option D

/-- All slots start empty. -/
def initState {P C D : Type} : CsState P C D := ⟨none, none, none, none⟩

/-- Read a plaintext slot by variable name. -/
def getPlain {P C D : Type} (st : CsState P C D) (n : String) : Option P :=
  if n = "xPlain" then st.xPlain
  else if n = "plainResult" then st.plainResult
  else none

/-- Write a plaintext slot by variable name. -/
def setPlain {P C D : Type} (st : CsState P C D) (n : String) (p : Option P) :
    CsState P C D :=
  if n = "xPlain" then { st with xPlain := p }
  else if n = "plainResult" then { st with plainResult := p }
  else st

/-- Read the ciphertext slot by variable name. -/
def getCipher {P C D : Type} (st : CsState P C D) (n : String) : Option C :=
  if n = "x1Encrypted" then st.x1Encrypted else none

/-- Write the ciphertext slot by variable name. -/
def setCipher {P C D : Type} (st : CsState P C D) (n : String) (c : Option C) :
    CsState P C D :=
  if n = "x1Encrypted" then { st with x1Encrypted := c } else st

/-- Effect of one event on the store; non-crypto events leave it unchanged. -/
def stepSem {P C D : Type} (ops : SealOps P C D) (st : CsState P C D) :
    Event → CsState P C D
  | .encode v s dst => setPlain st dst (some (ops.encode v s))
  | .encrypt src dst => setCipher st dst ((getPlain st src).map ops.encrypt)
  | .decrypt src dst => setPlain st dst ((getCipher st src).map ops.decrypt)
  | .decode src dst =>
    if dst = "result" then { st with result := (getPlain st src).map ops.decode }
    else st
  | _ => st

/-- Run a trace from a store. -/
def runSem {P C D : Type} (ops : SealOps P C D) (st : CsState P C D)
    (t : List Event) : CsState P C D :=
  t.foldl (stepSem ops) st

/-- The store after one encode/encrypt/decrypt/decode round: every slot is
overwritten, so the result does not depend on the starting store. -/
def roundFinal {P C D : Type} (ops : SealOps P C D) : CsState P C D :=
  { xPlain := some (ops.encode eConst ckksScale)
    plainResult := some (ops.decrypt (ops.encrypt (ops.encode eConst ckksScale)))
    x1Encrypted := some (ops.encrypt (ops.encode eConst ckksScale))
    result := some (ops.decode (ops.decrypt (ops.encrypt (ops.encode eConst ckksScale)))) }

theorem runSem_append {P C D : Type} (ops : SealOps P C D) (st : CsState P C D)
    (l1 l2 : List Event) :
    runSem ops st (l1 ++ l2) = runSem ops (runSem ops st l1) l2 := by
  simp [runSem, List.foldl_append]

theorem runSem_round {P C D : Type} (ops : SealOps P C D) (st : CsState P C D) :
    runSem ops st encDecRound = roundFinal ops := rfl

theorem runSem_inert {P C D : Type} (ops : SealOps P C D) :
    ∀ l : List Event, l.all (fun e => !isCrypto e) = true →
      ∀ st : CsState P C D, runSem ops st l = st := by
  intro l
  induction l with
  | nil => intro _ st; rfl
  | cons e es ih =>
    intro h st
    simp only [List.all_cons, Bool.and_eq_true] at h
    obtain ⟨he, hes⟩ := h
    have hstep : stepSem ops st e = st := by
      cases e <;> first | rfl | (exact absurd he (by simp [isCrypto]))
    have hcons : runSem ops st (e :: es) = runSem ops (stepSem ops st e) es := rfl
    rw [hcons, hstep, ih hes st]

theorem runSem_loop {P C D : Type} (ops : SealOps P C D) :
    ∀ n : ℕ, 0 < n → ∀ st : CsState P C D,
      runSem ops st (loopN n encDecRound) = roundFinal ops := by
  intro n
  induction n with
  | zero => intro h; exact absurd h (by omega)
  | succ k ih =>
    intro _ st
    rw [loopN_succ, runSem_append, runSem_round]
    rcases Nat.eq_zero_or_pos k with h | h
    · subst h; rfl
    · exact ih h _

/-! ### Per-program helper lemmas -/

/-- The parameter-construction calls of a trace. -/
def paramCalls (t : List Event) : List Event := t.filter isParamSet

theorem loopN_of_nil (n : ℕ) : loopN n ([] : List Event) = [] := by
  induction n with
  | zero => rfl
  | succ k ih => rw [loopN_succ, ih]; rfl

theorem filter_shape (p : Event → Bool) (A R B : List Event) (n : ℕ)
    (hA : A.filter p = []) (hR : R.filter p = []) (hB : B.filter p = []) :
    (A ++ loopN n R ++ B).filter p = [] := by
  rw [List.filter_append, List.filter_append, filter_loopN, hA, hR, hB,
    loopN_of_nil]
  rfl

theorem scalesOf_shape (A R B : List Event) (n : ℕ)
    (hA : scalesOf A = []) (hR : scalesOf R = [ckksScale]) (hB : scalesOf B = []) :
    scalesOf (A ++ loopN n R ++ B) = List.replicate n ckksScale := by
  unfold scalesOf at *
  rw [List.filterMap_append, List.filterMap_append, filterMap_loopN, hA, hR, hB,
    join_replicate_singleton]
  simp

theorem cryptoCalls_shape (A R B : List Event) (n : ℕ)
    (hA : cryptoCalls A = []) (hR : cryptoCalls R = R) (hB : cryptoCalls B = []) :
    cryptoCalls (A ++ loopN n R ++ B) = loopN n R := by
  unfold cryptoCalls at *
  rw [List.filter_append, List.filter_append, filter_loopN, hA, hR, hB]
  simp

theorem count_shape (e : Event) (A R B : List Event) (n : ℕ) :
    (A ++ loopN n R ++ B).count e = A.count e + n * R.count e + B.count e := by
  rw [List.count_append, List.count_append, count_loopN]

theorem decryptSafe_shape (A B : List Event) (n : ℕ)
    (hA : decryptSafe A = true)
    (hB : ∀ q : List String, decryptSafeAux q B = true) :
    decryptSafe (A ++ loopN n encDecRound ++ B) = true := by
  unfold decryptSafe at *
  rw [decryptSafeAux_append, decryptSafeAux_append, hA, decryptSafeAux_loop, hB]
  rfl

/-- True exactly on the newContext event. -/
def isContextEv : Event → Bool
  | .newContext => true
  | _ => false

/-- True exactly on the newKeyGenerator event. -/
def isKeygenEv : Event → Bool
  | .newKeyGenerator => true
  | _ => false

/-- True exactly on Encrypt calls. -/
def isEncryptEv : Event → Bool
  | .encrypt _ _ => true
  | _ => false

theorem paramCalls_shape (A R B : List Event) (n : ℕ)
    (hR : paramCalls R = []) (hB : paramCalls B = []) :
    paramCalls (A ++ loopN n R ++ B) = paramCalls A := by
  unfold paramCalls at *
  rw [List.filter_append, List.filter_append, filter_loopN, hR, hB, loopN_of_nil]
  simp

/-- An inert-trace form of runSem_inert suitable for rewriting. -/
theorem runSem_inert_eq {P C D : Type} (ops : SealOps P C D) (st : CsState P C D)
    (l : List Event) (h : l.all (fun e => !isCrypto e) = true) :
    runSem ops st l = st :=
  runSem_inert ops l h st

/-- runSem_loop restated with the loop body as the literal event list that
appears inside the looped program traces. -/
theorem runSem_loop_lit {P C D : Type} (ops : SealOps P C D) (n : ℕ) (hn : 0 < n)
    (st : CsState P C D) :
    runSem ops st (loopN n
      [.encode eConst ckksScale "xPlain",
       .encrypt "xPlain" "x1Encrypted",
       .decrypt "x1Encrypted" "plainResult",
       .decode "plainResult" "result"]) = roundFinal ops :=
  runSem_loop ops n hn st

theorem run_testMainLoop {P C D : Type} (ops : SealOps P C D) :
    runSem ops initState testMainLoopTrace = roundFinal ops := by
  rw [testMainLoopTrace, runSem_append, runSem_append,
    runSem_inert_eq ops _ _ (by decide), runSem_loop_lit ops 1000 (by omega)]

theorem run_handleClicked {P C D : Type} (ops : SealOps P C D) :
    runSem ops initState handleClickedTrace = roundFinal ops := by
  rw [handleClickedTrace, runSem_append, runSem_append,
    runSem_inert_eq ops _ _ (by decide), runSem_loop_lit ops 1000 (by omega)]

theorem run_ticksMainLoop {P C D : Type} (ops : SealOps P C D) :
    runSem ops initState ticksMainLoopTrace = roundFinal ops := by
  rw [ticksMainLoopTrace, runSem_append, runSem_append,
    runSem_inert_eq ops _ _ (by decide), runSem_loop_lit ops 1000 (by omega)]

theorem cryptoCalls_testMainLoop :
    cryptoCalls testMainLoopTrace = loopN 1000 encDecRound := by
  rw [testMainLoopTrace, cryptoCalls_shape _ _ _ 1000 (by rfl) (by rfl) (by rfl)]
  rfl

theorem cryptoCalls_ticksMainLoop :
    cryptoCalls ticksMainLoopTrace = loopN 1000 encDecRound := by
  rw [ticksMainLoopTrace, cryptoCalls_shape _ _ _ 1000 (by rfl) (by rfl) (by rfl)]
  rfl

theorem cryptoCalls_handleClicked :
    cryptoCalls handleClickedTrace = loopN 1000 encDecRound := by
  rw [handleClickedTrace, cryptoCalls_shape _ _ _ 1000 (by rfl) (by rfl) (by rfl)]
  rfl

theorem paramCalls_testMainLoop :
    paramCalls testMainLoopTrace = [.newParams "CKKS", .setPolyModulusDegree 8192,
      .setCoeffModulus 8192 [60, 40, 40, 60]] := by
  rw [testMainLoopTrace, paramCalls_shape _ _ _ 1000 (by decide) (by decide)]
  decide

theorem paramCalls_ticksMainLoop :
    paramCalls ticksMainLoopTrace = [.newParams "CKKS", .setPolyModulusDegree 8192,
      .setCoeffModulus 8192 [60, 40, 40, 60]] := by
  rw [ticksMainLoopTrace, paramCalls_shape _ _ _ 1000 (by decide) (by decide)]
  decide

theorem paramCalls_handleClicked :
    paramCalls handleClickedTrace = [.newParams "CKKS", .setPolyModulusDegree 8192,
      .setCoeffModulus 8192 [60, 40, 40, 60]] := by
  rw [handleClickedTrace, paramCalls_shape _ _ _ 1000 (by decide) (by decide)]
  decide

theorem scalesOf_testMainLoop :
    scalesOf testMainLoopTrace = List.replicate 1000 ckksScale := by
  rw [testMainLoopTrace, scalesOf_shape _ _ _ 1000 (by rfl) (by rfl) (by rfl)]

theorem scalesOf_ticksMainLoop :
    scalesOf ticksMainLoopTrace = List.replicate 1000 ckksScale := by
  rw [ticksMainLoopTrace, scalesOf_shape _ _ _ 1000 (by rfl) (by rfl) (by rfl)]

theorem scalesOf_handleClicked :
    scalesOf handleClickedTrace = List.replicate 1000 ckksScale := by
  rw [handleClickedTrace, scalesOf_shape _ _ _ 1000 (by rfl) (by rfl) (by rfl)]

theorem decryptSafe_testMainLoop : decryptSafe testMainLoopTrace = true := by
  exact decryptSafe_shape _ _ 1000 (by decide) (fun q => rfl)

theorem decryptSafe_ticksMainLoop : decryptSafe ticksMainLoopTrace = true := by
  exact decryptSafe_shape _ _ 1000 (by decide) (fun q => rfl)

theorem decryptSafe_handleClicked : decryptSafe handleClickedTrace = true := by
  exact decryptSafe_shape _ _ 1000 (by decide) (fun q => rfl)

theorem keygenCount_testMainLoop : testMainLoopTrace.count .newKeyGenerator = 1 := by
  rw [testMainLoopTrace, count_shape]
  decide

theorem keygenCount_ticksMainLoop : ticksMainLoopTrace.count .newKeyGenerator = 1 := by
  rw [ticksMainLoopTrace, count_shape]
  decide

theorem keygenCount_handleClicked : handleClickedTrace.count .newKeyGenerator = 1 := by
  rw [handleClickedTrace, count_shape]
  decide

/-! ### Claim-level trace predicates -/

/-- The fixed-sequence property claimed for the C# timing programs: the
EncryptionParameters object is constructed first, all parameter construction
happens before the SEALContext, the SEALContext before the KeyGenerator, the
KeyGenerator is created exactly once and before any Encrypt call, the
cryptographic calls are exactly n rounds of Encode-Encrypt-Decrypt-Decode,
and Decrypt is only ever applied to a ciphertext Encrypt has produced. -/
def timingSequenceOK (t : List Event) (n : ℕ) : Prop :=
  t.head? = some (.newParams "CKKS") ∧
  precedes isParamSet isContextEv t = true ∧
  precedes isContextEv isKeygenEv t = true ∧
  t.count .newKeyGenerator = 1 ∧
  precedes isKeygenEv isEncryptEv t = true ∧
  cryptoCalls t = loopN n encDecRound ∧
  decryptSafe t = true

/-- The parameter invariant claimed for every C# program: scheme CKKS,
degree 8192, bit sizes 60-40-40-60, the three construction calls occur
before the SEALContext and are the only parameter calls of the run, and
every Encode uses scale 2 ^ 40. -/
def paramInvariant (t : List Event) (n : ℕ) : Prop :=
  t.take 4 = [.newParams "CKKS", .setPolyModulusDegree 8192,
    .setCoeffModulus 8192 [60, 40, 40, 60], .newContext] ∧
  paramCalls t = [.newParams "CKKS", .setPolyModulusDegree 8192,
    .setCoeffModulus 8192 [60, 40, 40, 60]] ∧
  scalesOf t = List.replicate n ckksScale

/-! ## Theorems for the claims (first group) -/

/-! ### Activity-level transcription of every repository-defined code unit

Each function or top-level cell of repository code is listed with the
activities it performs, in source order.  Calls from one repository unit to
another (main calling server_config_from_flags, the computation cell calling
sigmoid) are not separate activities: the callee's own activities are
recorded at its definition.  Control flow, local assignment and return
statements carry no activity of their own. -/

/-- One activity performed by a repository-defined code unit. -/
inductive Activity where
  | importLib (module : String)
  | constructParams (desc : String)
  | libCall (fn : String)
  | timing (fn : String)
  | printResult (dst : String)
  | raiseException (exc : String)
  | defineCoeffs (coeffs : List ℚ)
  | buildConfig (kind : String)
  deriving DecidableEq

/-- A repository-defined code unit with its activities. -/
structure CodeUnit where
  name : String
  activities : List Activity

/-- Activities of str2bool: the isinstance test, the two lower() calls, and
the raise of argparse.ArgumentTypeError on the else branch. -/
def str2boolActs : List Activity :=
  [.libCall "isinstance", .libCall "str.lower", .libCall "str.lower",
   .raiseException "argparse.ArgumentTypeError"]

/-- Activities of server_config_from_flags: building the RewriterConfig and
ConfigProto framework configuration objects, the encode() calls on the flag
strings, and the MergeFrom call. -/
def serverConfigActs : List Activity :=
  [.buildConfig "RewriterConfig", .libCall "custom_optimizers.add",
   .libCall "str.encode", .libCall "str.encode", .libCall "str.encode",
   .buildConfig "ConfigProto", .libCall "ConfigProto.MergeFrom"]

/-- Activities of the sigmoid approximation from the logistic-regression
notebook: defining the coefficient vector np.array of 0.5, 0.197, 0.0,
-0.004 and delegating the evaluation to tfs.poly_eval. -/
def sigmoidActs : List Activity :=
  [.defineCoeffs [0.5, 0.197, 0.0, -0.004], .libCall "tfs.poly_eval"]

/-- Activities common to every C# test.Main / Handle_Clicked body: parameter
construction, context, keys, helper objects, the encode/encrypt/decrypt/
decode calls (repeated unchanged by the 1000-iteration loops), and output. -/
def csMainActs (timed : Bool) (outDst : String) : List Activity :=
  [.constructParams "EncryptionParameters SchemeType.CKKS",
   .constructParams "PolyModulusDegree 8192",
   .constructParams "CoeffModulus.Create 8192 bits 60 40 40 60",
   .libCall "Math.Pow",
   .libCall "SEALContext",
   .printResult outDst,
   .libCall "KeyGenerator",
   .libCall "Encryptor",
   .libCall "Decryptor",
   .libCall "CKKSEncoder",
   .libCall "Plaintext",
   .libCall "Plaintext",
   .libCall "Ciphertext"] ++
  (if timed then [.timing "Stopwatch.Start"] else []) ++
  [.libCall "CKKSEncoder.Encode",
   .libCall "Encryptor.Encrypt",
   .libCall "Decryptor.Decrypt",
   .libCall "CKKSEncoder.Decode"] ++
  (if timed then [.timing "Stopwatch.Stop"] else []) ++
  [.printResult outDst, .printResult outDst] ++
  (if timed then [.printResult outDst] else [])

/-- All repository-defined code units, with their activities transcribed in
source order from the five notebook documents. -/
def repoUnits : List CodeUnit :=
  [{ name := "nb1.imports"
     activities := [.importLib "numpy", .importLib "tensorflow", .importLib "tf_seal"] },
   { name := "nb1.key_generation"
     activities := [.libCall "tfs.seal_key_gen"] },
   { name := "nb1.addition_inputs"
     activities := [.libCall "np.random.normal", .printResult "stdout",
       .libCall "tfs.constant"] },
   { name := "nb1.addition_ones"
     activities := [.libCall "np.ones"] },
   { name := "nb1.addition_products"
     activities := [.libCall "np.transpose", .libCall "tfs.matmul", .libCall "tf.matmul"] },
   { name := "nb1.addition_session"
     activities := [.libCall "tf.Session", .libCall "sess.run", .printResult "stdout",
       .libCall "sess.run", .printResult "stdout"] },
   { name := "nb1.multiplication_cell"
     activities := [.libCall "np.random.normal", .libCall "np.random.normal",
       .printResult "stdout", .printResult "stdout",
       .libCall "tfs.constant", .libCall "tfs.constant",
       .libCall "tfs.matmul", .libCall "tf.matmul",
       .libCall "tf.Session", .libCall "sess.run", .printResult "stdout",
       .libCall "sess.run", .printResult "stdout"] },
   { name := "he.imports"
     activities := [.importLib "ngraph_bridge", .importLib "argparse",
       .importLib "numpy", .importLib "tensorflow",
       .importLib "rewriter_config_pb2"] },
   { name := "str2bool", activities := str2boolActs },
   { name := "server_config_from_flags", activities := serverConfigActs },
   { name := "he.argparse_main_block"
     activities := [.libCall "argparse.ArgumentParser",
       .libCall "parser.add_argument", .libCall "parser.add_argument",
       .libCall "parser.add_argument", .libCall "parser.add_argument",
       .libCall "parser.parse_known_args"] },
   { name := "he.main_constant"
     activities := [.libCall "tf.placeholder", .libCall "tf.constant",
       .libCall "tf.Session", .libCall "sess.run", .libCall "sess.run",
       .printResult "stdout"] },
   { name := "he.main_multiply"
     activities := [.libCall "tf.placeholder", .libCall "tf.constant",
       .libCall "tf.multiply", .libCall "tf.Session", .libCall "sess.run",
       .libCall "sess.run"] },
   { name := "cs.usings"
     activities := [.importLib "Microsoft.Research.SEAL", .importLib "System",
       .importLib "System.Diagnostics"] },
   { name := "cs.testMain_plain", activities := csMainActs false "console" },
   { name := "cs.testMain_timed", activities := csMainActs true "console" },
   { name := "cs.testMain_loop", activities := csMainActs true "console" },
   { name := "android.testMain_plain", activities := csMainActs false "console" },
   { name := "android.testMain_timed", activities := csMainActs true "console" },
   { name := "android.testMain_loop", activities := csMainActs true "console" },
   { name := "xamarin.usings"
     activities := [.importLib "System", .importLib "System.Collections.Generic",
       .importLib "System.ComponentModel", .importLib "System.Linq",
       .importLib "System.Text", .importLib "System.Threading.Tasks",
       .importLib "Xamarin.Forms", .importLib "System.Diagnostics",
       .importLib "Microsoft.Research.SEAL"] },
   { name := "xamarin.MainPage_ctor"
     activities := [.libCall "InitializeComponent", .printResult "label"] },
   { name := "xamarin.LabelText_set"
     activities := [.libCall "OnPropertyChanged"] },
   { name := "xamarin.Handle_Clicked", activities := csMainActs true "label" },
   { name := "nb2.imports"
     activities := [.importLib "numpy", .importLib "tensorflow",
       .importLib "tf_seal", .importLib "time"] },
   { name := "sigmoid", activities := sigmoidActs },
   { name := "tf_log_reg"
     activities := [.libCall "tf.matmul", .libCall "tf.sigmoid"] },
   { name := "nb2.computation_cell"
     activities := [.libCall "tfs.seal_key_gen", .libCall "np.random.normal",
       .libCall "tfs.constant", .libCall "np.random.normal",
       .libCall "np.transpose", .libCall "tfs.matmul"] },
   { name := "nb2.timing_session"
     activities := [.libCall "tf.Session", .printResult "stdout",
       .timing "time.process_time", .libCall "sess.run",
       .timing "time.process_time", .printResult "stdout",
       .printResult "stdout", .printResult "stdout",
       .timing "time.process_time", .libCall "sess.run",
       .timing "time.process_time", .printResult "stdout",
       .printResult "stdout", .printResult "stdout",
       .printResult "stdout"] }]

/-- The five activity categories the spec allows: importing the library,
constructing encryption parameters, calling library functions, timing the
calls, and printing results. -/
def inFiveActivities : Activity → Bool
  | .importLib _ => true
  | .constructParams _ => true
  | .libCall _ => true
  | .timing _ => true
  | .printResult _ => true
  | _ => false

/-- True exactly on library-call activities. -/
def isLibCall : Activity → Bool
  | .libCall _ => true
  | _ => false

/-- The name payload of an activity, used to classify it. -/
def activityName : Activity → String
  | .importLib m => m
  | .constructParams d => d
  | .libCall fn => fn
  | .timing fn => fn
  | .printResult d => d
  | .raiseException e => e
  | .defineCoeffs _ => "coefficient vector"
  | .buildConfig k => k

/-- The external library functions that carry out cryptographic operations
in the notebooks: key generation, encoding, encryption, decryption and the
homomorphic operations (including polynomial evaluation). -/
def cryptoFns : List String :=
  ["tfs.seal_key_gen", "tfs.constant", "tfs.matmul", "tfs.poly_eval",
   "KeyGenerator", "CKKSEncoder.Encode", "Encryptor.Encrypt",
   "Decryptor.Decrypt", "CKKSEncoder.Decode"]

/-- An activity performs a cryptographic operation when its name is one of
the cryptographic library functions. -/
def performsCrypto (a : Activity) : Bool := cryptoFns.contains (activityName a)

/-- Allowed exceptions for the amended five-category claim: str2bool raises,
sigmoid defines approximation coefficients, server_config_from_flags builds
framework configuration objects. -/
def allowedExtra (unitName : String) (a : Activity) : Bool :=
  match a with
  | .raiseException _ => unitName == "str2bool"
  | .defineCoeffs _ => unitName == "sigmoid"
  | .buildConfig _ => unitName == "server_config_from_flags"
  | _ => false

/-! ### Timing and printing arithmetic

The looped C# programs print stopWatch.ElapsedMilliseconds / 1000.0 (or
1.0 * stopWatch.ElapsedTicks / Stopwatch.Frequency in the tick-based
variants); the logistic-regression notebook prints each elapsed time as
int(1000000 * t) / 1000000 and the slowdown as int(tSeal / tNorm).  The
expressions are transcribed below over exact rationals. -/

/-- The average printed by the looped test.Main:
stopWatch.ElapsedMilliseconds / 1000.0. -/
def loopAvgPrinted (elapsedMilliseconds : ℚ) : ℚ := elapsedMilliseconds / 1000

/-- The value printed by the tick-based looped variants:
1.0 * stopWatch.ElapsedTicks / Stopwatch.Frequency. -/
def tickAvgPrinted (elapsedTicks frequency : ℚ) : ℚ := 1 * elapsedTicks / frequency

/-- Python int() on a rational: truncation toward zero. -/
def pyInt (q : ℚ) : ℤ := q.num.tdiv q.den

/-- The elapsed time printed by the timing session of the
logistic-regression notebook: int(1000000 * t) / 1000000. -/
def printedTime (t : ℚ) : ℚ := (pyInt (1000000 * t) : ℚ) / 1000000

/-- The slowdown factor printed by the timing session:
int(tSeal / tNorm). -/
def printedSlowdown (tSeal tNorm : ℚ) : ℤ := pyInt (tSeal / tNorm)

theorem pyInt_eq_floor (q : ℚ) (h : 0 ≤ q) : pyInt q = ⌊q⌋ := by
  unfold pyInt
  rw [Int.tdiv_eq_ediv (by exact_mod_cast Rat.num_nonneg.mpr h) (by positivity)]
  exact Rat.floor_def.symm

/-- C4: the reported timings are exact arithmetic on the raw timer values:
the looped C# average times 1000 recovers the elapsed milliseconds exactly,
the tick-based printed value times the frequency recovers the elapsed ticks
exactly, the Python notebook prints each elapsed time truncated toward zero
to six decimal places (within one millionth below the true value for
nonnegative times), and prints the slowdown as the integer truncation of the
ratio of the two elapsed times. -/
theorem timing_arithmetic (ms tk f t t1 t2 : ℚ)
    (hf : f ≠ 0) (ht : 0 ≤ t) (h1 : 0 ≤ t1) (h2 : 0 < t2) :
    loopAvgPrinted ms * 1000 = ms ∧
    tickAvgPrinted tk f * f = tk ∧
    printedTime t = (⌊(1000000 : ℚ) * t⌋ : ℚ) / 1000000 ∧
    0 ≤ t - printedTime t ∧
    t - printedTime t < 1 / 1000000 ∧
    (printedSlowdown t1 t2 : ℚ) ≤ t1 / t2 ∧
    t1 / t2 < printedSlowdown t1 t2 + 1 := by
  have hprint : printedTime t = (⌊(1000000 : ℚ) * t⌋ : ℚ) / 1000000 := by
    rw [printedTime, pyInt_eq_floor _ (by positivity)]
  have hfl : (⌊(1000000 : ℚ) * t⌋ : ℚ) ≤ 1000000 * t := Int.floor_le _
  have hfl2 : (1000000 : ℚ) * t < ⌊(1000000 : ℚ) * t⌋ + 1 := Int.lt_floor_add_one _
  have hr : (0 : ℚ) ≤ t1 / t2 := div_nonneg h1 h2.le
  have hs : printedSlowdown t1 t2 = ⌊t1 / t2⌋ := pyInt_eq_floor _ hr
  refine ⟨?_, ?_, hprint, ?_, ?_, ?_, ?_⟩
  · rw [loopAvgPrinted]
    field_simp
  · rw [tickAvgPrinted, one_mul]
    field_simp
  · rw [hprint]
    linarith
  · rw [hprint]
    linarith
  · rw [hs]
    exact_mod_cast Int.floor_le (t1 / t2)
  · rw [hs]
    exact_mod_cast Int.lt_floor_add_one (t1 / t2)

/-- Witness for timing_arithmetic at concrete raw timer values. -/
theorem timing_arithmetic_witness :
    loopAvgPrinted 11631 * 1000 = 11631 ∧
    printedTime (1 / 3) = (⌊(1000000 : ℚ) * (1 / 3)⌋ : ℚ) / 1000000 :=
  ⟨(timing_arithmetic 11631 5 2 (1 / 3) 5 2 (by norm_num) (by norm_num)
      (by norm_num) (by norm_num)).1,
   (timing_arithmetic 11631 5 2 (1 / 3) 5 2 (by norm_num) (by norm_num)
      (by norm_num) (by norm_num)).2.2.1⟩

/-- C3: in every C# timing program, the EncryptionParameters object is
constructed first, then the SEALContext, then the KeyGenerator (exactly once
per run, before any encryption); the cryptographic calls are exactly n
rounds of Encode, Encrypt, Decrypt, Decode in that order (n = 1 for the
single-round programs, n = 1000 for the looped ones), and Decrypt is never
invoked on a ciphertext before Encrypt has produced it. -/
theorem csharp_timing_sequence :
    timingSequenceOK testMainTimedTrace 1 ∧
    timingSequenceOK testMainLoopTrace 1000 ∧
    timingSequenceOK ticksMainTimedTrace 1 ∧
    timingSequenceOK ticksMainLoopTrace 1000 ∧
    timingSequenceOK handleClickedTrace 1000 := by
  refine ⟨⟨rfl, rfl, rfl, rfl, rfl, rfl, rfl⟩,
    ⟨rfl, rfl, rfl, keygenCount_testMainLoop, rfl, cryptoCalls_testMainLoop,
      decryptSafe_testMainLoop⟩,
    ⟨rfl, rfl, rfl, rfl, rfl, rfl, rfl⟩,
    ⟨rfl, rfl, rfl, keygenCount_ticksMainLoop, rfl, cryptoCalls_ticksMainLoop,
      decryptSafe_ticksMainLoop⟩,
    ⟨rfl, rfl, rfl, keygenCount_handleClicked, rfl, cryptoCalls_handleClicked,
      decryptSafe_handleClicked⟩⟩

/-- C5: every C# program constructs its encryption context from SchemeType
CKKS, PolyModulusDegree 8192 and coefficient-modulus bit sizes 60, 40, 40,
60; the three construction calls all occur before the SEALContext is created
and are the only parameter operations of the run, and every Encode call uses
the scale 2 ^ 40. -/
theorem csharp_param_invariant :
    paramInvariant testMainPlainTrace 1 ∧
    paramInvariant testMainTimedTrace 1 ∧
    paramInvariant testMainLoopTrace 1000 ∧
    paramInvariant ticksMainPlainTrace 1 ∧
    paramInvariant ticksMainTimedTrace 1 ∧
    paramInvariant ticksMainLoopTrace 1000 ∧
    paramInvariant handleClickedTrace 1000 := by
  refine ⟨⟨rfl, rfl, rfl⟩, ⟨rfl, rfl, rfl⟩,
    ⟨rfl, paramCalls_testMainLoop, scalesOf_testMainLoop⟩,
    ⟨rfl, rfl, rfl⟩, ⟨rfl, rfl, rfl⟩,
    ⟨rfl, paramCalls_ticksMainLoop, scalesOf_ticksMainLoop⟩,
    ⟨rfl, paramCalls_handleClicked, scalesOf_handleClicked⟩⟩

/-- C6: the untimed test.Main, the stopwatch-timed test.Main, the
1000-iteration averaged test.Main and the Xamarin Handle_Clicked handler all
compute the same final decoded result - decode of decrypt of encrypt of
encode of the constant 2.718281828459 at scale 2 ^ 40 - for every abstract
SEAL oracle; their cryptographic calls are repetitions of the identical
Encode-Encrypt-Decrypt-Decode round with identical arguments, and their
parameter constructions are identical, so the stopwatch, the loop and the
label output change only the timing measurement and the display target. -/
theorem timed_variants_agree (P C D : Type) (ops : SealOps P C D) :
    (runSem ops initState testMainPlainTrace).result
      = some (ops.decode (ops.decrypt (ops.encrypt (ops.encode eConst ckksScale)))) ∧
    (runSem ops initState testMainTimedTrace).result
      = (runSem ops initState testMainPlainTrace).result ∧
    (runSem ops initState testMainLoopTrace).result
      = (runSem ops initState testMainPlainTrace).result ∧
    (runSem ops initState handleClickedTrace).result
      = (runSem ops initState testMainPlainTrace).result ∧
    cryptoCalls testMainPlainTrace = encDecRound ∧
    cryptoCalls testMainTimedTrace = encDecRound ∧
    cryptoCalls testMainLoopTrace = loopN 1000 encDecRound ∧
    cryptoCalls handleClickedTrace = loopN 1000 encDecRound ∧
    paramCalls testMainTimedTrace = paramCalls testMainPlainTrace ∧
    paramCalls testMainLoopTrace = paramCalls testMainPlainTrace ∧
    paramCalls handleClickedTrace = paramCalls testMainPlainTrace := by
  refine ⟨rfl, rfl, ?_, ?_, rfl, rfl, cryptoCalls_testMainLoop,
    cryptoCalls_handleClicked, rfl, ?_, ?_⟩
  · rw [run_testMainLoop]
    rfl
  · rw [run_handleClicked]
    rfl
  · rw [paramCalls_testMainLoop]
    rfl
  · rw [paramCalls_handleClicked]
    rfl

/-- A concrete oracle (identity on rationals) for instantiating the
refinement theorem. -/
def idOps : SealOps ℚ ℚ ℚ :=
  { encode := fun v _ => v, encrypt := id, decrypt := id, decode := id }

/-- Witness for timed_variants_agree at the concrete identity oracle. -/
theorem timed_variants_agree_witness :
    (runSem idOps initState testMainPlainTrace).result
      = some (idOps.decode (idOps.decrypt (idOps.encrypt
          (idOps.encode eConst ckksScale)))) :=
  (timed_variants_agree ℚ ℚ ℚ idOps).1

/-- C7: str2bool returns a bool input unchanged; on strings it answers true
or false according to the lower-cased word tables, raises
argparse.ArgumentTypeError exactly when the lower-cased form is in neither
table, and its result depends only on the lower-cased form. -/
theorem str2bool_spec (b : Bool) (s t : String) :
    str2bool (.bool b) = .ret (.bool b) ∧
    (pyLower s ∈ trueWords → str2bool (.str s) = .ret (.bool true)) ∧
    (pyLower s ∈ falseWords → str2bool (.str s) = .ret (.bool false)) ∧
    (str2bool (.str s) = .raise "argparse.ArgumentTypeError" ↔
      pyLower s ∉ trueWords ∧ pyLower s ∉ falseWords) ∧
    (pyLower s = pyLower t → str2bool (.str s) = str2bool (.str t)) := by
  refine ⟨rfl, ?_, ?_, ?_, ?_⟩
  · intro h1
    simp [str2bool, h1]
  · intro h2
    have h1 : pyLower s ∉ trueWords := by
      simp only [falseWords, List.mem_cons, List.not_mem_nil, or_false] at h2
      rcases h2 with h | h | h | h | h | h <;> rw [h] <;> decide
    simp [str2bool, h1, h2]
  · by_cases h1 : pyLower s ∈ trueWords
    · simp [str2bool, h1]
    · by_cases h2 : pyLower s ∈ falseWords
      · simp [str2bool, h1, h2]
      · simp [str2bool, h1, h2]
  · intro h
    simp only [str2bool]
    rw [h]

/-- Witness for str2bool_spec at concrete inputs. -/
theorem str2bool_spec_witness :
    str2bool (.str "YES") = .ret (.bool true) :=
  (str2bool_spec true "YES" "yes").2.1 (by decide)

/-- C8 counterexample: with enable_client true and tensor_param_name equal
to the fixed key "enable_client", the final conditional assignment overwrites
the binding of "enable_client", so the map does not bind "enable_client" to
the encoded str(True). -/
theorem server_config_overwrite_counterexample :
    ngraphParams ⟨"HE_SEAL", "", true⟩ "enable_client" "enable_client"
      = some "client_input" ∧
    ¬ (ngraphParams ⟨"HE_SEAL", "", true⟩ "enable_client" "enable_client"
      = some (pyStr true)) := by
  constructor <;> decide

/-- C8 (amended): provided tensor_param_name is none of the four fixed keys,
the parameter map binds ngraph_backend, device_id, encryption_parameters and
enable_client as stated, and binds tensor_param_name to client_input exactly
when FLAGS.enable_client is true. -/
theorem server_config_binds (F : FLAGS) (tpn : String)
    (h : tpn ∉ ["ngraph_backend", "device_id", "encryption_parameters", "enable_client"]) :
    ngraphParams F tpn "ngraph_backend" = some F.backend ∧
    ngraphParams F tpn "device_id" = some "" ∧
    ngraphParams F tpn "encryption_parameters" = some F.encryption_parameters ∧
    ngraphParams F tpn "enable_client" = some (pyStr F.enable_client) ∧
    (ngraphParams F tpn tpn = some "client_input" ↔ F.enable_client = true) := by
  simp only [List.mem_cons, List.not_mem_nil, or_false, not_or] at h
  obtain ⟨h1, h2, h3, h4⟩ := h
  rcases F with ⟨bk, ep, ec⟩
  cases ec <;>
    simp_all [ngraphParams, server_config_from_flags, mapSet, pyStr,
      Ne.symm h1, Ne.symm h2, Ne.symm h3, Ne.symm h4]

/-- Witness for server_config_binds at the concrete call from the
HE-Transformer notebook main function. -/
theorem server_config_binds_witness :
    ngraphParams ⟨"HE_SEAL", "", true⟩ "client_parameter_name"
      "client_parameter_name" = some "client_input" :=
  ((server_config_binds ⟨"HE_SEAL", "", true⟩ "client_parameter_name"
    (by decide)).2.2.2.2).mpr rfl

/-- C9: multiplying a 1 x 2 row matrix by the 2 x 1 all-ones matrix
b = np.ones((2, 1)) yields the 1 x 1 matrix holding the sum of the two row
entries; this is the identity the addition demonstration relies on when it
compares the SEAL result against d = tf.matmul(a_plain, b). -/
theorem matmul_ones_is_sum (a : Matrix (Fin 1) (Fin 2) ℚ) :
    plainSum a 0 0 = a 0 0 + a 0 1 := by
  simp [plainSum, onesCol, Matrix.mul_apply, Fin.sum_univ_two]

/-- Witness for matmul_ones_is_sum at a concrete row matrix. -/
theorem matmul_ones_is_sum_witness :
    plainSum !![3, 4] 0 0 = !![(3 : ℚ), 4] 0 0 + !![(3 : ℚ), 4] 0 1 :=
  matmul_ones_is_sum !![3, 4]

/-- C1: in the activity transcription of every repository-defined code
unit, every activity that performs a cryptographic operation is a call into
an external library function; no repository-defined function computes one
itself, and the sigmoid approximation consists exactly of defining the
constant coefficient vector and delegating the polynomial evaluation to
tfs.poly_eval. -/
theorem crypto_only_library_calls :
    (repoUnits.all fun u => u.activities.all fun a =>
      !(performsCrypto a) || isLibCall a) = true ∧
    sigmoidActs = [.defineCoeffs [0.5, 0.197, 0.0, -0.004],
      .libCall "tfs.poly_eval"] ∧
    sigmoidActs.filter performsCrypto = [.libCall "tfs.poly_eval"] := by
  refine ⟨by decide, rfl, rfl⟩

/-- C2 counterexample: the claim that every repository-defined activity
falls into the five allowed categories is false: str2bool contains the
raise of argparse.ArgumentTypeError, which is in none of them. -/
theorem five_activities_counterexample :
    (repoUnits.all fun u => u.activities.all inFiveActivities) = false ∧
    Activity.raiseException "argparse.ArgumentTypeError" ∈ str2boolActs ∧
    inFiveActivities (Activity.raiseException "argparse.ArgumentTypeError") = false := by
  refine ⟨by decide, by decide, rfl⟩

/-- C2 (amended): every activity of every repository-defined code unit is
within the five categories, except that str2bool performs input validation
that raises an exception, sigmoid defines approximation coefficients, and
server_config_from_flags builds framework configuration objects. -/
theorem five_activities_amended :
    (repoUnits.all fun u => u.activities.all fun a =>
      inFiveActivities a || allowedExtra u.name a) = true := by
  decide

end Notebooks
